import Mathlib

/-!
Shallow embedding of the `joyeria-practica-bd` HTTP CRUD backend.

The repository holds two variants of the same Express + PostgreSQL server:
  * Variant A (`src/unnamed/part_000`): columns `nombre, descripcion, precio,
    stock`; list `ORDER BY id ASC`; create without validation; delete answers
    204 with no body; a root `GET /` route serving `index.html` registered
    after the resource routes.
  * Variant B (`src/server.js`): columns `nombre, tipo_producto, costo_venta,
    cantidad_disponible, proveedor_id, material`; list `ORDER BY id DESC`;
    create validates `nombre` and `costo_venta` by JavaScript truthiness;
    delete answers 200 with a message object.

The datastore is modelled as an in-memory list of rows plus a server-side
id counter; a handler receives an extra `dbErr : Option String` input that
is `some msg` exactly when the single SQL round trip of that request fails
with error message `msg` (connection failure, constraint violation, ...).
Each handler returns the HTTP response, the new datastore state and a flag
recording whether `console.error` ran (the logging side effect).
-/

/-- A JSON scalar as it can appear in a request body field.  A field that is
absent from the body or explicitly `null` is modelled as `Option.none`
(both are falsy in JavaScript and both are bound as SQL NULL by `pg`). -/
inductive Value where
  | str (s : String)
  | num (n : Int)
  | bool (b : Bool)
  deriving DecidableEq, Repr

/-- JavaScript truthiness of an optional body field, as tested by
`if (!nombre || !costo_venta)` in `src/server.js`: `undefined`, `null`,
the empty string, `0` and `false` are falsy. -/
def truthy : Option Value → Bool
  | none => false
  | some (Value.str s) => !s.isEmpty
  | some (Value.num n) => n != 0
  | some (Value.bool b) => b

/-- Helper: read a list of characters as a decimal number, failing on the
empty list or any non-digit. -/
def digitsToNat : List Char → Option Nat
  | [] => none
  | cs => cs.foldlM (fun acc c => if c.isDigit then some (acc * 10 + (c.toNat - 48)) else none) 0

/-- PostgreSQL parsing of a text parameter bound against an `integer`
column: an optional sign followed by decimal digits.  The Express `:id`
path parameter reaches the database as this raw string; when it is not an
integer literal the database raises a type error. -/
def parseIntLit (s : String) : Option Int :=
  match s.data with
  | [] => none
  | c :: rest =>
    if c = '-' then (digitsToNat rest).map (fun n => -(n : Int))
    else if c = '+' then (digitsToNat rest).map (fun n => (n : Int))
    else (digitsToNat (c :: rest)).map (fun n => (n : Int))

namespace VariantB

/-- A row of the `productos` table as used by `src/server.js`. -/
structure Producto where
  id : Int
  nombre : Option Value
  tipo_producto : Option Value
  costo_venta : Option Value
  cantidad_disponible : Option Value
  proveedor_id : Option Value
  material : Option Value
  deriving DecidableEq, Repr

/-- The datastore state: the rows of `productos` plus the next value of the
server-generated primary-key sequence. -/
structure DB where
  rows : List Producto
  nextId : Int
  deriving DecidableEq, Repr

/-- A JSON response body of `src/server.js`. -/
inductive Body where
  | rowsJson (rs : List Producto)
  | rowJson (r : Producto)
  | errMsg (e : String)
  | errDetails (e d : String)
  | deletedMsg (msg : String) (id_eliminado : Int)
  deriving DecidableEq, Repr

/-- One handler invocation: HTTP status, body, resulting datastore state
and whether `console.error` was called. -/
structure Outcome where
  status : Nat
  body : Body
  db : DB
  logged : Bool
  deriving DecidableEq, Repr

/-- The request body of `POST /api/productos` after destructuring. -/
structure CreateBody where
  nombre : Option Value
  tipo_producto : Option Value
  costo_venta : Option Value
  cantidad_disponible : Option Value
  proveedor_id : Option Value
  material : Option Value
  deriving DecidableEq, Repr

/-- The request body of `PUT /api/productos/:id` after destructuring; the
handler reads only these three fields and silently drops any others. -/
structure UpdateBody where
  nombre : Option Value
  costo_venta : Option Value
  cantidad_disponible : Option Value
  deriving DecidableEq, Repr

/-- `GET /api/productos` (src/server.js lines 33-41):
`SELECT * FROM productos ORDER BY id DESC`. -/
def listProductos (dbErr : Option String) (db : DB) : Outcome :=
  match dbErr with
  | some _ => ⟨500, Body.errMsg "Error al consultar la base de datos.", db, true⟩
  | none => ⟨200, Body.rowsJson (db.rows.insertionSort (fun a b => b.id ≤ a.id)), db, false⟩

/-- `POST /api/productos` (src/server.js lines 44-66): truthiness check on
`nombre` and `costo_venta`, then `INSERT ... RETURNING *`. -/
def createProducto (dbErr : Option String) (body : CreateBody) (db : DB) : Outcome :=
  if !truthy body.nombre || !truthy body.costo_venta then
    ⟨400, Body.errMsg "Faltan campos obligatorios: nombre y costo_venta.", db, false⟩
  else
    match dbErr with
    | some e => ⟨500, Body.errDetails "Error al crear el producto." e, db, true⟩
    | none =>
      let row : Producto :=
        ⟨db.nextId, body.nombre, body.tipo_producto, body.costo_venta,
          body.cantidad_disponible, body.proveedor_id, body.material⟩
      ⟨201, Body.rowJson row, ⟨db.rows ++ [row], db.nextId + 1⟩, false⟩

/-- The row update performed by the SQL `SET` clause of the PUT handler:
the three columns are overwritten with the bound parameters (an absent
body field was destructured to `undefined` and bound as NULL). -/
def applyUpdate (body : UpdateBody) (r : Producto) : Producto :=
  { r with nombre := body.nombre, costo_venta := body.costo_venta,
           cantidad_disponible := body.cantidad_disponible }

/-- `PUT /api/productos/:id` (src/server.js lines 69-91):
`UPDATE productos SET ... WHERE id = $4 RETURNING *`, then a 404 when
`rowCount` is zero. -/
def updateProducto (dbErr : Option String) (idStr : String) (body : UpdateBody) (db : DB) :
    Outcome :=
  match dbErr with
  | some e => ⟨500, Body.errDetails "Error al actualizar el producto." e, db, true⟩
  | none =>
    match parseIntLit idStr with
    | none =>
      ⟨500, Body.errDetails "Error al actualizar el producto."
        "invalid input syntax for type integer", db, true⟩
    | some id =>
      let returned := (db.rows.filter (fun r => r.id = id)).map (applyUpdate body)
      match returned with
      | [] => ⟨404, Body.errMsg "Producto no encontrado para actualizar.", db, false⟩
      | r :: _ =>
        ⟨200, Body.rowJson r,
          ⟨db.rows.map (fun s => if s.id = id then applyUpdate body s else s), db.nextId⟩,
          false⟩

/-- `DELETE /api/productos/:id` (src/server.js lines 94-108):
`DELETE FROM productos WHERE id = $1 RETURNING *`, a 404 when `rowCount`
is zero, otherwise 200 with a message object. -/
def deleteProducto (dbErr : Option String) (idStr : String) (db : DB) : Outcome :=
  match dbErr with
  | some e => ⟨500, Body.errDetails "Error al eliminar el producto." e, db, true⟩
  | none =>
    match parseIntLit idStr with
    | none =>
      ⟨500, Body.errDetails "Error al eliminar el producto."
        "invalid input syntax for type integer", db, true⟩
    | some id =>
      match db.rows.filter (fun r => r.id = id) with
      | [] => ⟨404, Body.errMsg "Producto no encontrado para eliminar.", db, false⟩
      | r :: _ =>
        ⟨200, Body.deletedMsg "Producto eliminado correctamente." r.id,
          ⟨db.rows.filter (fun s => ¬ s.id = id), db.nextId⟩, false⟩

end VariantB

namespace VariantA

/-- A row of the `productos` table as used by `src/unnamed/part_000`. -/
structure Producto where
  id : Int
  nombre : Option Value
  descripcion : Option Value
  precio : Option Value
  stock : Option Value
  deriving DecidableEq, Repr

/-- The datastore state for variant A. -/
structure DB where
  rows : List Producto
  nextId : Int
  deriving DecidableEq, Repr

/-- A response body of `src/unnamed/part_000`; `noContent` is the empty
204 response of the delete handler, `htmlFile` the static file sent by
`res.sendFile` on the root route. -/
inductive Body where
  | rowsJson (rs : List Producto)
  | rowJson (r : Producto)
  | errMsg (e : String)
  | noContent
  | htmlFile (p : String)
  deriving DecidableEq, Repr

/-- One handler invocation for variant A. -/
structure Outcome where
  status : Nat
  body : Body
  db : DB
  logged : Bool
  deriving DecidableEq, Repr

/-- The request body of create and update after destructuring: both
handlers read the same four fields. -/
structure ProductoBody where
  nombre : Option Value
  descripcion : Option Value
  precio : Option Value
  stock : Option Value
  deriving DecidableEq, Repr

/-- `GET /api/productos` (src/unnamed/part_000 lines 44-52):
`SELECT * FROM productos ORDER BY id ASC`. -/
def listProductos (dbErr : Option String) (db : DB) : Outcome :=
  match dbErr with
  | some _ => ⟨500, Body.errMsg "Error al consultar la base de datos.", db, true⟩
  | none => ⟨200, Body.rowsJson (db.rows.insertionSort (fun a b => a.id ≤ b.id)), db, false⟩

/-- `POST /api/productos` (src/unnamed/part_000 lines 55-66): no
validation, straight to `INSERT ... RETURNING *`. -/
def createProducto (dbErr : Option String) (body : ProductoBody) (db : DB) : Outcome :=
  match dbErr with
  | some _ => ⟨500, Body.errMsg "Error al añadir producto en la base de datos.", db, true⟩
  | none =>
    let row : Producto := ⟨db.nextId, body.nombre, body.descripcion, body.precio, body.stock⟩
    ⟨201, Body.rowJson row, ⟨db.rows ++ [row], db.nextId + 1⟩, false⟩

/-- The row update performed by the SQL `SET` clause of the variant A PUT
handler: all four mutable columns are overwritten with the bound
parameters. -/
def applyUpdate (body : ProductoBody) (r : Producto) : Producto :=
  { r with nombre := body.nombre, descripcion := body.descripcion,
           precio := body.precio, stock := body.stock }

/-- `PUT /api/productos/:id` (src/unnamed/part_000 lines 69-85):
`UPDATE ... WHERE id=$5 RETURNING *`, a 404 when `result.rows.length`
is zero. -/
def updateProducto (dbErr : Option String) (idStr : String) (body : ProductoBody) (db : DB) :
    Outcome :=
  match dbErr with
  | some _ => ⟨500, Body.errMsg "Error al actualizar el producto en la base de datos.", db, true⟩
  | none =>
    match parseIntLit idStr with
    | none => ⟨500, Body.errMsg "Error al actualizar el producto en la base de datos.", db, true⟩
    | some id =>
      let returned := (db.rows.filter (fun r => r.id = id)).map (applyUpdate body)
      match returned with
      | [] => ⟨404, Body.errMsg "Producto no encontrado.", db, false⟩
      | r :: _ =>
        ⟨200, Body.rowJson r,
          ⟨db.rows.map (fun s => if s.id = id then applyUpdate body s else s), db.nextId⟩,
          false⟩

/-- `DELETE /api/productos/:id` (src/unnamed/part_000 lines 88-101):
`DELETE FROM productos WHERE id = $1`, a 404 when `rowCount` is zero,
otherwise `res.status(204).send()`. -/
def deleteProducto (dbErr : Option String) (idStr : String) (db : DB) : Outcome :=
  match dbErr with
  | some _ => ⟨500, Body.errMsg "Error al eliminar el producto de la base de datos.", db, true⟩
  | none =>
    match parseIntLit idStr with
    | none => ⟨500, Body.errMsg "Error al eliminar el producto de la base de datos.", db, true⟩
    | some id =>
      match db.rows.filter (fun r => r.id = id) with
      | [] => ⟨404, Body.errMsg "Producto no encontrado para eliminar.", db, false⟩
      | _ :: _ =>
        ⟨204, Body.noContent, ⟨db.rows.filter (fun s => ¬ s.id = id), db.nextId⟩, false⟩

/-- HTTP methods used by the route table. -/
inductive HttpMethod where
  | get | post | put | del
  deriving DecidableEq, Repr

/-- A registered route: method plus path pattern. -/
structure Route where
  method : HttpMethod
  pattern : String
  deriving DecidableEq, Repr

/-- The route table of `src/unnamed/part_000`, in registration order
(lines 44, 55, 69, 88, 109): the four resource routes, then the root
route. -/
def routes : List Route :=
  [⟨HttpMethod.get, "/api/productos"⟩,
   ⟨HttpMethod.post, "/api/productos"⟩,
   ⟨HttpMethod.put, "/api/productos/:id"⟩,
   ⟨HttpMethod.del, "/api/productos/:id"⟩,
   ⟨HttpMethod.get, "/"⟩]

/-- Strip a literal character prefix, failing when it is not a prefix. -/
def stripChars : List Char → List Char → Option (List Char)
  | [], l => some l
  | _, [] => none
  | c :: cs, d :: ds => if c = d then stripChars cs ds else none

/-- Express path matching, restricted to the patterns this app registers:
a literal pattern matches exactly its own path, and
`/api/productos/:id` matches `/api/productos/<seg>` for a nonempty
segment without a further slash. -/
def matchesPattern (pattern path : String) : Bool :=
  if pattern = "/api/productos/:id" then
    match stripChars "/api/productos/".data path.data with
    | none => false
    | some seg => !seg.isEmpty && !seg.contains '/'
  else
    path = pattern

/-- Route dispatch: the first registered route whose method and pattern
match handles the request. -/
def dispatch (m : HttpMethod) (path : String) : Option Route :=
  routes.find? (fun r => r.method = m && matchesPattern r.pattern path)

/-- The response of the root route handler: `res.sendFile` answers 200
with the static `index.html` document. -/
def rootResponse (db : DB) : Outcome :=
  ⟨200, Body.htmlFile "index.html", db, false⟩

/-- The array carried by a list response body. -/
def bodyRows : Body → List Producto
  | Body.rowsJson rs => rs
  | _ => []

end VariantA

/-- The array carried by a variant B list response body. -/
def VariantB.bodyRows : VariantB.Body → List VariantB.Producto
  | VariantB.Body.rowsJson rs => rs
  | _ => []

instance : IsTotal VariantA.Producto (fun a b => a.id ≤ b.id) :=
  ⟨fun a b => Int.le_total a.id b.id⟩

instance : IsTrans VariantA.Producto (fun a b => a.id ≤ b.id) :=
  ⟨fun _ _ _ h1 h2 => le_trans h1 h2⟩

instance : IsTotal VariantB.Producto (fun a b => b.id ≤ a.id) :=
  ⟨fun a b => Int.le_total b.id a.id⟩

instance : IsTrans VariantB.Producto (fun a b => b.id ≤ a.id) :=
  ⟨fun _ _ _ h1 h2 => le_trans h2 h1⟩

/-! ### Helper lemmas about `List.filter`, shared by several claims. -/

theorem filter_head_spec {α : Type} {p : α → Bool} {l : List α} {r : α} {t : List α}
    (h : l.filter p = r :: t) : r ∈ l ∧ p r = true := by
  have hr : r ∈ l.filter p := by rw [h]; exact List.mem_cons_self r t
  exact List.mem_filter.mp hr

theorem filter_ne_nil_of_mem {α : Type} {p : α → Bool} {l : List α} {a : α}
    (ha : a ∈ l) (hp : p a = true) : l.filter p ≠ [] := by
  intro h
  have hmem : a ∈ l.filter p := List.mem_filter.mpr ⟨ha, hp⟩
  rw [h] at hmem
  exact List.not_mem_nil a hmem

theorem filter_eq_singleton {α : Type} (f : α → Int) (l : List α) :
    ∀ (i : Int) (a : α), (l.map f).Nodup → a ∈ l → f a = i →
      l.filter (fun s => f s = i) = [a] := by
  induction l with
  | nil => intro i a _ ha _; exact absurd ha (List.not_mem_nil a)
  | cons b t ih =>
    intro i a hnd ha hfa
    rw [List.map_cons, List.nodup_cons] at hnd
    rcases List.mem_cons.mp ha with rfl | hat
    · have ht : t.filter (fun s => f s = i) = [] := by
        apply List.filter_eq_nil_iff.mpr
        intro s hs hsi
        apply hnd.1
        have : f s = f a := by
          have := of_decide_eq_true hsi
          rw [this, hfa]
        exact this ▸ List.mem_map_of_mem f hs
      simp [List.filter_cons, hfa, ht]
    · have hbne : ¬ f b = i := by
        intro hbi
        apply hnd.1
        have : f a ∈ t.map f := List.mem_map_of_mem f hat
        rw [hfa, ← hbi] at this
        exact this
      simp only [List.filter_cons, decide_eq_true_eq]
      rw [if_neg hbne]
      exact ih i a hnd.2 hat hfa

/-! ### Claims -/

/-- Claim C1, counterexample: the payload with `nombre = "Anillo"` and
`costo_venta = 0` has both required fields present, non-empty and
non-null, yet variant B rejects it with HTTP 400 and never reaches the
datastore, contradicting the claim that every request with both fields
present and non-empty/non-null passes the validation.  The JavaScript
check `if (!nombre || !costo_venta)` also rejects the falsy number 0. -/
theorem c1_counterexample :
    (some (Value.num 0) ≠ (none : Option Value)) ∧
    (some (Value.num 0) ≠ some (Value.str "")) ∧
    VariantB.createProducto none
        ⟨some (Value.str "Anillo"), none, some (Value.num 0), none, none, none⟩ ⟨[], 1⟩ =
      ⟨400, VariantB.Body.errMsg "Faltan campos obligatorios: nombre y costo_venta.",
        ⟨[], 1⟩, false⟩ :=
  ⟨by simp, by simp, rfl⟩

/-- Claim C1 (amended): in variant B, a create request in which `nombre` or
`costo_venta` is falsy under JavaScript truthiness (absent, null, empty
string, the number 0, or false) fails with HTTP 400 before any datastore
call and inserts no row; every request in which both fields are truthy
passes the validation and proceeds to the datastore call (201 and a new
row when the datastore succeeds, the 500 failure path otherwise); in
variant A, create performs no validation at all and always proceeds to
the datastore. -/
theorem c1_create_validation (b : VariantB.CreateBody) (db : VariantB.DB)
    (e : String) (a : VariantA.ProductoBody) (dbA : VariantA.DB) :
    (¬ (truthy b.nombre = true ∧ truthy b.costo_venta = true) →
      ∀ dbErr, VariantB.createProducto dbErr b db =
        ⟨400, VariantB.Body.errMsg "Faltan campos obligatorios: nombre y costo_venta.",
          db, false⟩)
    ∧ (truthy b.nombre = true → truthy b.costo_venta = true →
      VariantB.createProducto none b db =
        ⟨201, VariantB.Body.rowJson
            ⟨db.nextId, b.nombre, b.tipo_producto, b.costo_venta,
              b.cantidad_disponible, b.proveedor_id, b.material⟩,
          ⟨db.rows ++ [⟨db.nextId, b.nombre, b.tipo_producto, b.costo_venta,
              b.cantidad_disponible, b.proveedor_id, b.material⟩], db.nextId + 1⟩, false⟩
      ∧ VariantB.createProducto (some e) b db =
        ⟨500, VariantB.Body.errDetails "Error al crear el producto." e, db, true⟩)
    ∧ VariantA.createProducto none a dbA =
        ⟨201, VariantA.Body.rowJson ⟨dbA.nextId, a.nombre, a.descripcion, a.precio, a.stock⟩,
          ⟨dbA.rows ++ [⟨dbA.nextId, a.nombre, a.descripcion, a.precio, a.stock⟩],
            dbA.nextId + 1⟩, false⟩ := by
  refine ⟨?_, ?_, rfl⟩
  · intro h dbErr
    have hcond : (!truthy b.nombre || !truthy b.costo_venta) = true := by
      cases hn : truthy b.nombre <;> cases hc : truthy b.costo_venta <;> simp_all
    simp [VariantB.createProducto, hcond]
  · intro hn hc
    constructor <;> simp [VariantB.createProducto, hn, hc]

/-- Claim C1 witness: the empty body fails validation with 400 in
variant B and leaves the datastore untouched. -/
theorem c1_create_validation_witness :
    VariantB.createProducto none ⟨none, none, none, none, none, none⟩ ⟨[], 5⟩ =
      ⟨400, VariantB.Body.errMsg "Faltan campos obligatorios: nombre y costo_venta.",
        ⟨[], 5⟩, false⟩ :=
  (c1_create_validation ⟨none, none, none, none, none, none⟩ ⟨[], 5⟩ "e"
      ⟨none, none, none, none⟩ ⟨[], 5⟩).1 (by decide) none

/-- Claim C2: for every id that matches no row, update and delete answer
HTTP 404 (detected from the zero affected-row count after the datastore
call) and leave the datastore state unchanged; in particular update does
not create a row.  Stated for both variants. -/
theorem c2_not_found (idStr : String) (id : Int)
    (hparse : parseIntLit idStr = some id)
    (dbA : VariantA.DB) (bodyA : VariantA.ProductoBody)
    (hA : ∀ r ∈ dbA.rows, r.id ≠ id)
    (dbB : VariantB.DB) (bodyB : VariantB.UpdateBody)
    (hB : ∀ r ∈ dbB.rows, r.id ≠ id) :
    VariantA.updateProducto none idStr bodyA dbA =
        ⟨404, VariantA.Body.errMsg "Producto no encontrado.", dbA, false⟩
    ∧ VariantA.deleteProducto none idStr dbA =
        ⟨404, VariantA.Body.errMsg "Producto no encontrado para eliminar.", dbA, false⟩
    ∧ VariantB.updateProducto none idStr bodyB dbB =
        ⟨404, VariantB.Body.errMsg "Producto no encontrado para actualizar.", dbB, false⟩
    ∧ VariantB.deleteProducto none idStr dbB =
        ⟨404, VariantB.Body.errMsg "Producto no encontrado para eliminar.", dbB, false⟩ := by
  have hfA : dbA.rows.filter (fun r => r.id = id) = [] :=
    List.filter_eq_nil_iff.mpr (fun r hr => by simpa using hA r hr)
  have hfB : dbB.rows.filter (fun r => r.id = id) = [] :=
    List.filter_eq_nil_iff.mpr (fun r hr => by simpa using hB r hr)
  refine ⟨?_, ?_, ?_, ?_⟩ <;>
    simp [VariantA.updateProducto, VariantA.deleteProducto,
      VariantB.updateProducto, VariantB.deleteProducto, hparse, hfA, hfB]

/-- Claim C2 witness: id 7 on an empty table gives 404 for variant A
update without touching the table. -/
theorem c2_not_found_witness :
    parseIntLit "7" = some 7 ∧
    VariantA.updateProducto none "7" ⟨none, none, none, none⟩ ⟨[], 1⟩ =
      ⟨404, VariantA.Body.errMsg "Producto no encontrado.", ⟨[], 1⟩, false⟩ :=
  ⟨rfl, (c2_not_found "7" 7 rfl ⟨[], 1⟩ ⟨none, none, none, none⟩
      (by simp) ⟨[], 1⟩ ⟨none, none, none⟩ (by simp)).1⟩

/-- Claim C3: for every id referencing an existing row, update answers
HTTP 200 with a record whose fields equal the supplied ones and whose id
is unchanged, and a subsequent list reflects the update.  Variant A
updates all four mutable fields, variant B only `nombre`, `costo_venta`
and `cantidad_disponible`. -/
theorem c3_update_success (idStr : String) (id : Int)
    (hparse : parseIntLit idStr = some id)
    (dbA : VariantA.DB) (bodyA : VariantA.ProductoBody)
    (hA : ∃ r ∈ dbA.rows, r.id = id)
    (dbB : VariantB.DB) (bodyB : VariantB.UpdateBody)
    (hB : ∃ r ∈ dbB.rows, r.id = id) :
    ((VariantA.updateProducto none idStr bodyA dbA).status = 200
      ∧ ∃ r, (VariantA.updateProducto none idStr bodyA dbA).body = VariantA.Body.rowJson r
        ∧ r.id = id ∧ r.nombre = bodyA.nombre ∧ r.descripcion = bodyA.descripcion
        ∧ r.precio = bodyA.precio ∧ r.stock = bodyA.stock
        ∧ r ∈ VariantA.bodyRows (VariantA.listProductos none
            (VariantA.updateProducto none idStr bodyA dbA).db).body)
    ∧ ((VariantB.updateProducto none idStr bodyB dbB).status = 200
      ∧ ∃ r, (VariantB.updateProducto none idStr bodyB dbB).body = VariantB.Body.rowJson r
        ∧ r.id = id ∧ r.nombre = bodyB.nombre ∧ r.costo_venta = bodyB.costo_venta
        ∧ r.cantidad_disponible = bodyB.cantidad_disponible
        ∧ r ∈ VariantB.bodyRows (VariantB.listProductos none
            (VariantB.updateProducto none idStr bodyB dbB).db).body) := by
  constructor
  · obtain ⟨r0, hr0, hid0⟩ := hA
    have hfilt : dbA.rows.filter (fun r => r.id = id) ≠ [] :=
      filter_ne_nil_of_mem hr0 (decide_eq_true hid0)
    cases hF : dbA.rows.filter (fun r => r.id = id) with
    | nil => exact absurd hF hfilt
    | cons rh rt =>
      have hspec := filter_head_spec hF
      have hrhid : rh.id = id := of_decide_eq_true hspec.2
      have heq : VariantA.updateProducto none idStr bodyA dbA =
          ⟨200, VariantA.Body.rowJson (VariantA.applyUpdate bodyA rh),
            ⟨dbA.rows.map (fun s => if s.id = id then VariantA.applyUpdate bodyA s else s),
              dbA.nextId⟩, false⟩ := by
        simp [VariantA.updateProducto, hparse, hF]
      rw [heq]
      refine ⟨rfl, VariantA.applyUpdate bodyA rh, rfl, ?_, rfl, rfl, rfl, rfl, ?_⟩
      · simpa [VariantA.applyUpdate] using hrhid
      · have hmem : (if rh.id = id then VariantA.applyUpdate bodyA rh else rh) ∈
            dbA.rows.map (fun s => if s.id = id then VariantA.applyUpdate bodyA s else s) :=
          List.mem_map_of_mem _ hspec.1
        rw [if_pos hrhid] at hmem
        simpa [VariantA.listProductos, VariantA.bodyRows] using hmem
  · obtain ⟨r0, hr0, hid0⟩ := hB
    have hfilt : dbB.rows.filter (fun r => r.id = id) ≠ [] :=
      filter_ne_nil_of_mem hr0 (decide_eq_true hid0)
    cases hF : dbB.rows.filter (fun r => r.id = id) with
    | nil => exact absurd hF hfilt
    | cons rh rt =>
      have hspec := filter_head_spec hF
      have hrhid : rh.id = id := of_decide_eq_true hspec.2
      have heq : VariantB.updateProducto none idStr bodyB dbB =
          ⟨200, VariantB.Body.rowJson (VariantB.applyUpdate bodyB rh),
            ⟨dbB.rows.map (fun s => if s.id = id then VariantB.applyUpdate bodyB s else s),
              dbB.nextId⟩, false⟩ := by
        simp [VariantB.updateProducto, hparse, hF]
      rw [heq]
      refine ⟨rfl, VariantB.applyUpdate bodyB rh, rfl, ?_, rfl, rfl, rfl, ?_⟩
      · simpa [VariantB.applyUpdate] using hrhid
      · have hmem : (if rh.id = id then VariantB.applyUpdate bodyB rh else rh) ∈
            dbB.rows.map (fun s => if s.id = id then VariantB.applyUpdate bodyB s else s) :=
          List.mem_map_of_mem _ hspec.1
        rw [if_pos hrhid] at hmem
        simpa [VariantB.listProductos, VariantB.bodyRows] using hmem

/-- Claim C3 witness: updating the single row with id 1 answers 200 in
both variants. -/
theorem c3_update_success_witness :
    parseIntLit "1" = some 1 ∧
    (VariantA.updateProducto none "1" ⟨some (Value.str "b"), none, none, none⟩
      ⟨[⟨1, some (Value.str "a"), none, none, none⟩], 2⟩).status = 200 ∧
    (VariantB.updateProducto none "1" ⟨some (Value.str "b"), none, none⟩
      ⟨[⟨1, some (Value.str "a"), none, none, none, none, none⟩], 2⟩).status = 200 :=
  ⟨rfl,
    (c3_update_success "1" 1 rfl
      ⟨[⟨1, some (Value.str "a"), none, none, none⟩], 2⟩
      ⟨some (Value.str "b"), none, none, none⟩
      ⟨⟨1, some (Value.str "a"), none, none, none⟩, by simp, rfl⟩
      ⟨[⟨1, some (Value.str "a"), none, none, none, none, none⟩], 2⟩
      ⟨some (Value.str "b"), none, none⟩
      ⟨⟨1, some (Value.str "a"), none, none, none, none, none⟩, by simp, rfl⟩).1.1,
    (c3_update_success "1" 1 rfl
      ⟨[⟨1, some (Value.str "a"), none, none, none⟩], 2⟩
      ⟨some (Value.str "b"), none, none, none⟩
      ⟨⟨1, some (Value.str "a"), none, none, none⟩, by simp, rfl⟩
      ⟨[⟨1, some (Value.str "a"), none, none, none, none, none⟩], 2⟩
      ⟨some (Value.str "b"), none, none⟩
      ⟨⟨1, some (Value.str "a"), none, none, none, none, none⟩, by simp, rfl⟩).2.1⟩

/-- Claim C4: every valid create succeeds with HTTP 201, the response body
is the full persisted row with the server-assigned id, and a subsequent
list includes that row.  In variant B valid means `nombre` and
`costo_venta` truthy; variant A accepts every payload. -/
theorem c4_create_list_round_trip (b : VariantB.CreateBody) (db : VariantB.DB)
    (hn : truthy b.nombre = true) (hc : truthy b.costo_venta = true)
    (a : VariantA.ProductoBody) (dbA : VariantA.DB) :
    ((VariantB.createProducto none b db).status = 201
      ∧ (VariantB.createProducto none b db).body = VariantB.Body.rowJson
          ⟨db.nextId, b.nombre, b.tipo_producto, b.costo_venta,
            b.cantidad_disponible, b.proveedor_id, b.material⟩
      ∧ (⟨db.nextId, b.nombre, b.tipo_producto, b.costo_venta,
            b.cantidad_disponible, b.proveedor_id, b.material⟩ : VariantB.Producto) ∈
          VariantB.bodyRows (VariantB.listProductos none
            (VariantB.createProducto none b db).db).body)
    ∧ ((VariantA.createProducto none a dbA).status = 201
      ∧ (VariantA.createProducto none a dbA).body = VariantA.Body.rowJson
          ⟨dbA.nextId, a.nombre, a.descripcion, a.precio, a.stock⟩
      ∧ (⟨dbA.nextId, a.nombre, a.descripcion, a.precio, a.stock⟩ : VariantA.Producto) ∈
          VariantA.bodyRows (VariantA.listProductos none
            (VariantA.createProducto none a dbA).db).body) := by
  constructor
  · have heq : VariantB.createProducto none b db =
        ⟨201, VariantB.Body.rowJson
            ⟨db.nextId, b.nombre, b.tipo_producto, b.costo_venta,
              b.cantidad_disponible, b.proveedor_id, b.material⟩,
          ⟨db.rows ++ [⟨db.nextId, b.nombre, b.tipo_producto, b.costo_venta,
              b.cantidad_disponible, b.proveedor_id, b.material⟩], db.nextId + 1⟩, false⟩ := by
      simp [VariantB.createProducto, hn, hc]
    rw [heq]
    refine ⟨rfl, rfl, ?_⟩
    simp [VariantB.listProductos, VariantB.bodyRows]
  · refine ⟨rfl, rfl, ?_⟩
    simp [VariantA.createProducto, VariantA.listProductos, VariantA.bodyRows]

/-- Claim C4 witness: the concrete payload `nombre = "Anillo"`,
`costo_venta = 150` is created with 201 in variant B. -/
theorem c4_create_list_round_trip_witness :
    truthy (some (Value.str "Anillo")) = true ∧
    (VariantB.createProducto none
      ⟨some (Value.str "Anillo"), none, some (Value.num 150), some (Value.num 5), none, none⟩
      ⟨[], 1⟩).status = 201 :=
  ⟨rfl,
    (c4_create_list_round_trip
      ⟨some (Value.str "Anillo"), none, some (Value.num 150), some (Value.num 5), none, none⟩
      ⟨[], 1⟩ rfl rfl ⟨none, none, none, none⟩ ⟨[], 1⟩).1.1⟩

/-- Claim C5: for every operation in both variants, a datastore failure is
caught locally and turned into an HTTP 500 response with a generic
message (with the underlying error detail where the handler includes
`err.message`), the raw error is logged (`console.error`) on every such
failure path, and the datastore state is untouched.  The handlers are
total functions, so no datastore error crashes the process. -/
theorem c5_error_propagation (e : String)
    (dbA : VariantA.DB) (a : VariantA.ProductoBody) (idStrA : String)
    (dbB : VariantB.DB) (b : VariantB.CreateBody) (ub : VariantB.UpdateBody)
    (idStrB : String)
    (hn : truthy b.nombre = true) (hc : truthy b.costo_venta = true) :
    VariantA.listProductos (some e) dbA =
        ⟨500, VariantA.Body.errMsg "Error al consultar la base de datos.", dbA, true⟩
    ∧ VariantA.createProducto (some e) a dbA =
        ⟨500, VariantA.Body.errMsg "Error al añadir producto en la base de datos.", dbA, true⟩
    ∧ VariantA.updateProducto (some e) idStrA a dbA =
        ⟨500, VariantA.Body.errMsg "Error al actualizar el producto en la base de datos.",
          dbA, true⟩
    ∧ VariantA.deleteProducto (some e) idStrA dbA =
        ⟨500, VariantA.Body.errMsg "Error al eliminar el producto de la base de datos.",
          dbA, true⟩
    ∧ VariantB.listProductos (some e) dbB =
        ⟨500, VariantB.Body.errMsg "Error al consultar la base de datos.", dbB, true⟩
    ∧ VariantB.createProducto (some e) b dbB =
        ⟨500, VariantB.Body.errDetails "Error al crear el producto." e, dbB, true⟩
    ∧ VariantB.updateProducto (some e) idStrB ub dbB =
        ⟨500, VariantB.Body.errDetails "Error al actualizar el producto." e, dbB, true⟩
    ∧ VariantB.deleteProducto (some e) idStrB dbB =
        ⟨500, VariantB.Body.errDetails "Error al eliminar el producto." e, dbB, true⟩ := by
  refine ⟨rfl, rfl, rfl, rfl, rfl, ?_, rfl, rfl⟩
  simp [VariantB.createProducto, hn, hc]

/-- Claim C5 witness: a failing insert of a valid payload in variant B
answers 500 with the error detail, logs, and leaves the table alone. -/
theorem c5_error_propagation_witness :
    VariantB.createProducto (some "boom")
      ⟨some (Value.str "Anillo"), none, some (Value.num 150), none, none, none⟩ ⟨[], 1⟩ =
      ⟨500, VariantB.Body.errDetails "Error al crear el producto." "boom", ⟨[], 1⟩, true⟩ :=
  (c5_error_propagation "boom" ⟨[], 1⟩ ⟨none, none, none, none⟩ "1" ⟨[], 1⟩
    ⟨some (Value.str "Anillo"), none, some (Value.num 150), none, none, none⟩
    ⟨none, none, none⟩ "1" rfl rfl).2.2.2.2.2.1

/-- Claim C6: list takes no input and answers HTTP 200 with all rows
ordered by id — ascending in variant A, descending in variant B — and on
an empty table it answers 200 with the empty array. -/
theorem c6_list_ordered (dbA : VariantA.DB) (dbB : VariantB.DB) (n m : Int) :
    (∃ l, VariantA.listProductos none dbA = ⟨200, VariantA.Body.rowsJson l, dbA, false⟩
      ∧ l.Sorted (fun a b => a.id ≤ b.id) ∧ l.Perm dbA.rows)
    ∧ (∃ l, VariantB.listProductos none dbB = ⟨200, VariantB.Body.rowsJson l, dbB, false⟩
      ∧ l.Sorted (fun a b => b.id ≤ a.id) ∧ l.Perm dbB.rows)
    ∧ VariantA.listProductos none ⟨[], n⟩ = ⟨200, VariantA.Body.rowsJson [], ⟨[], n⟩, false⟩
    ∧ VariantB.listProductos none ⟨[], m⟩ = ⟨200, VariantB.Body.rowsJson [], ⟨[], m⟩, false⟩ :=
  ⟨⟨_, rfl, List.sorted_insertionSort _ _, List.perm_insertionSort _ _⟩,
   ⟨_, rfl, List.sorted_insertionSort _ _, List.perm_insertionSort _ _⟩,
   rfl, rfl⟩

/-- Claim C8: in the variant that registers a root route
(`src/unnamed/part_000`), `GET /` dispatches to the root route, whose
handler answers 200 with the static `index.html` document; the root
route is registered last, after the four resource routes, and every
`/api/productos` request still dispatches to its resource route, so the
resource paths are never shadowed. -/
theorem c8_root_route (db : VariantA.DB) :
    VariantA.dispatch VariantA.HttpMethod.get "/" =
        some ⟨VariantA.HttpMethod.get, "/"⟩
    ∧ VariantA.rootResponse db = ⟨200, VariantA.Body.htmlFile "index.html", db, false⟩
    ∧ VariantA.routes.indexOf ⟨VariantA.HttpMethod.get, "/"⟩ = VariantA.routes.length - 1
    ∧ VariantA.routes.indexOf ⟨VariantA.HttpMethod.get, "/api/productos"⟩ <
        VariantA.routes.indexOf ⟨VariantA.HttpMethod.get, "/"⟩
    ∧ VariantA.routes.indexOf ⟨VariantA.HttpMethod.post, "/api/productos"⟩ <
        VariantA.routes.indexOf ⟨VariantA.HttpMethod.get, "/"⟩
    ∧ VariantA.routes.indexOf ⟨VariantA.HttpMethod.put, "/api/productos/:id"⟩ <
        VariantA.routes.indexOf ⟨VariantA.HttpMethod.get, "/"⟩
    ∧ VariantA.routes.indexOf ⟨VariantA.HttpMethod.del, "/api/productos/:id"⟩ <
        VariantA.routes.indexOf ⟨VariantA.HttpMethod.get, "/"⟩
    ∧ VariantA.dispatch VariantA.HttpMethod.get "/api/productos" =
        some ⟨VariantA.HttpMethod.get, "/api/productos"⟩
    ∧ VariantA.dispatch VariantA.HttpMethod.post "/api/productos" =
        some ⟨VariantA.HttpMethod.post, "/api/productos"⟩
    ∧ VariantA.dispatch VariantA.HttpMethod.put "/api/productos/7" =
        some ⟨VariantA.HttpMethod.put, "/api/productos/:id"⟩
    ∧ VariantA.dispatch VariantA.HttpMethod.del "/api/productos/7" =
        some ⟨VariantA.HttpMethod.del, "/api/productos/:id"⟩ :=
  ⟨by decide, rfl, by decide, by decide, by decide, by decide, by decide,
   by decide, by decide, by decide, by decide⟩

/-- Claim C10: the `:id` path parameter reaches the parameterized SQL as
the raw string; when it is not an integer literal the datastore raises a
type error that both update and delete surface as a generic HTTP 500
(with logging, table untouched) — never as a 404. -/
theorem c10_invalid_id (idStr : String) (hbad : parseIntLit idStr = none)
    (dbA : VariantA.DB) (bodyA : VariantA.ProductoBody)
    (dbB : VariantB.DB) (bodyB : VariantB.UpdateBody) :
    VariantA.updateProducto none idStr bodyA dbA =
        ⟨500, VariantA.Body.errMsg "Error al actualizar el producto en la base de datos.",
          dbA, true⟩
    ∧ VariantA.deleteProducto none idStr dbA =
        ⟨500, VariantA.Body.errMsg "Error al eliminar el producto de la base de datos.",
          dbA, true⟩
    ∧ VariantB.updateProducto none idStr bodyB dbB =
        ⟨500, VariantB.Body.errDetails "Error al actualizar el producto."
          "invalid input syntax for type integer", dbB, true⟩
    ∧ VariantB.deleteProducto none idStr dbB =
        ⟨500, VariantB.Body.errDetails "Error al eliminar el producto."
          "invalid input syntax for type integer", dbB, true⟩ := by
  refine ⟨?_, ?_, ?_, ?_⟩ <;>
    simp [VariantA.updateProducto, VariantA.deleteProducto,
      VariantB.updateProducto, VariantB.deleteProducto, hbad]

/-- Claim C10 witness: the non-numeric id `"abc"` makes variant A update
answer 500, not 404. -/
theorem c10_invalid_id_witness :
    parseIntLit "abc" = none ∧
    VariantA.updateProducto none "abc" ⟨none, none, none, none⟩ ⟨[], 1⟩ =
      ⟨500, VariantA.Body.errMsg "Error al actualizar el producto en la base de datos.",
        ⟨[], 1⟩, true⟩ :=
  ⟨rfl, (c10_invalid_id "abc" rfl ⟨[], 1⟩ ⟨none, none, none, none⟩
    ⟨[], 1⟩ ⟨none, none, none⟩).1⟩

theorem length_filter_not_add {α : Type} (p : α → Bool) (l : List α) :
    (l.filter (fun a => !(p a))).length + (l.filter p).length = l.length := by
  induction l with
  | nil => rfl
  | cons b t ih =>
    cases hb : p b <;> simp [List.filter_cons, hb, ← ih] <;> omega

/-- Claim C7: deleting an existing id removes exactly the matching row —
the other rows survive and the row count drops by one — and answers 204
with no body in variant A and 200 with the message object carrying
`id_eliminado` in variant B; the subsequent list excludes that id, and a
second delete of the same id answers 404. -/
theorem c7_delete_success (idStr : String) (id : Int)
    (hparse : parseIntLit idStr = some id)
    (dbA : VariantA.DB) (rA : VariantA.Producto)
    (hmemA : rA ∈ dbA.rows) (hidA : rA.id = id)
    (hndA : (dbA.rows.map VariantA.Producto.id).Nodup)
    (dbB : VariantB.DB) (rB : VariantB.Producto)
    (hmemB : rB ∈ dbB.rows) (hidB : rB.id = id)
    (hndB : (dbB.rows.map VariantB.Producto.id).Nodup) :
    ((VariantA.deleteProducto none idStr dbA).status = 204
      ∧ (VariantA.deleteProducto none idStr dbA).body = VariantA.Body.noContent
      ∧ (VariantA.deleteProducto none idStr dbA).db.rows.length + 1 = dbA.rows.length
      ∧ (∀ r ∈ (VariantA.deleteProducto none idStr dbA).db.rows, r ∈ dbA.rows ∧ r.id ≠ id)
      ∧ (∀ r ∈ dbA.rows, r.id ≠ id → r ∈ (VariantA.deleteProducto none idStr dbA).db.rows)
      ∧ (∀ r ∈ VariantA.bodyRows (VariantA.listProductos none
            (VariantA.deleteProducto none idStr dbA).db).body, r.id ≠ id)
      ∧ (VariantA.deleteProducto none idStr
          (VariantA.deleteProducto none idStr dbA).db).status = 404)
    ∧ ((VariantB.deleteProducto none idStr dbB).status = 200
      ∧ (VariantB.deleteProducto none idStr dbB).body =
          VariantB.Body.deletedMsg "Producto eliminado correctamente." id
      ∧ (VariantB.deleteProducto none idStr dbB).db.rows.length + 1 = dbB.rows.length
      ∧ (∀ r ∈ (VariantB.deleteProducto none idStr dbB).db.rows, r ∈ dbB.rows ∧ r.id ≠ id)
      ∧ (∀ r ∈ dbB.rows, r.id ≠ id → r ∈ (VariantB.deleteProducto none idStr dbB).db.rows)
      ∧ (∀ r ∈ VariantB.bodyRows (VariantB.listProductos none
            (VariantB.deleteProducto none idStr dbB).db).body, r.id ≠ id)
      ∧ (VariantB.deleteProducto none idStr
          (VariantB.deleteProducto none idStr dbB).db).status = 404) := by
  constructor
  · have hFA : dbA.rows.filter (fun s => s.id = id) = [rA] :=
      filter_eq_singleton VariantA.Producto.id dbA.rows id rA hndA hmemA hidA
    have heq : VariantA.deleteProducto none idStr dbA =
        ⟨204, VariantA.Body.noContent,
          ⟨dbA.rows.filter (fun s => ¬ s.id = id), dbA.nextId⟩, false⟩ := by
      simp [VariantA.deleteProducto, hparse, hFA]
    have hlen : (dbA.rows.filter (fun s => ¬ s.id = id)).length +
        (dbA.rows.filter (fun s => s.id = id)).length = dbA.rows.length := by
      simpa [decide_not] using
        length_filter_not_add (fun s => decide (s.id = id)) dbA.rows
    rw [hFA] at hlen
    have hF2 : (dbA.rows.filter (fun s => ¬ s.id = id)).filter
        (fun s => s.id = id) = [] := by
      apply List.filter_eq_nil_iff.mpr
      intro s hs
      have h2 := (List.mem_filter.mp hs).2
      simp at h2 ⊢
      exact h2
    rw [heq]
    refine ⟨rfl, rfl, by simpa using hlen, ?_, ?_, ?_, ?_⟩
    · intro r hr
      have := List.mem_filter.mp hr
      exact ⟨this.1, by simpa using this.2⟩
    · intro r hr hne
      exact List.mem_filter.mpr ⟨hr, by simpa using hne⟩
    · intro r hr
      simp only [VariantA.listProductos, VariantA.bodyRows, List.mem_insertionSort] at hr
      have := List.mem_filter.mp hr
      simpa using this.2
    · simp [VariantA.deleteProducto, hparse, hF2]
  · have hFB : dbB.rows.filter (fun s => s.id = id) = [rB] :=
      filter_eq_singleton VariantB.Producto.id dbB.rows id rB hndB hmemB hidB
    have heq : VariantB.deleteProducto none idStr dbB =
        ⟨200, VariantB.Body.deletedMsg "Producto eliminado correctamente." rB.id,
          ⟨dbB.rows.filter (fun s => ¬ s.id = id), dbB.nextId⟩, false⟩ := by
      simp [VariantB.deleteProducto, hparse, hFB]
    have hlen : (dbB.rows.filter (fun s => ¬ s.id = id)).length +
        (dbB.rows.filter (fun s => s.id = id)).length = dbB.rows.length := by
      simpa [decide_not] using
        length_filter_not_add (fun s => decide (s.id = id)) dbB.rows
    rw [hFB] at hlen
    have hF2 : (dbB.rows.filter (fun s => ¬ s.id = id)).filter
        (fun s => s.id = id) = [] := by
      apply List.filter_eq_nil_iff.mpr
      intro s hs
      have h2 := (List.mem_filter.mp hs).2
      simp at h2 ⊢
      exact h2
    rw [heq]
    refine ⟨rfl, by rw [hidA] at hidA; exact congrArg _ hidB, by simpa using hlen, ?_, ?_, ?_, ?_⟩
    · intro r hr
      have := List.mem_filter.mp hr
      exact ⟨this.1, by simpa using this.2⟩
    · intro r hr hne
      exact List.mem_filter.mpr ⟨hr, by simpa using hne⟩
    · intro r hr
      simp only [VariantB.listProductos, VariantB.bodyRows, List.mem_insertionSort] at hr
      have := List.mem_filter.mp hr
      simpa using this.2
    · simp [VariantB.deleteProducto, hparse, hF2]

/-- Claim C7 witness: deleting id 1 from a one-row table answers 204 in
variant A, and the table had one row more before. -/
theorem c7_delete_success_witness :
    parseIntLit "1" = some 1 ∧
    (VariantA.deleteProducto none "1"
      ⟨[⟨1, some (Value.str "a"), none, none, none⟩], 2⟩).status = 204 ∧
    (VariantA.deleteProducto none "1"
      ⟨[⟨1, some (Value.str "a"), none, none, none⟩], 2⟩).db.rows.length + 1 = 1 :=
  ⟨rfl,
    (c7_delete_success "1" 1 rfl
      ⟨[⟨1, some (Value.str "a"), none, none, none⟩], 2⟩
      ⟨1, some (Value.str "a"), none, none, none⟩ (by simp) rfl (by simp)
      ⟨[⟨1, some (Value.str "a"), none, none, none, none, none⟩], 2⟩
      ⟨1, some (Value.str "a"), none, none, none, none, none⟩ (by simp) rfl (by simp)).1.1,
    (c7_delete_success "1" 1 rfl
      ⟨[⟨1, some (Value.str "a"), none, none, none⟩], 2⟩
      ⟨1, some (Value.str "a"), none, none, none⟩ (by simp) rfl (by simp)
      ⟨[⟨1, some (Value.str "a"), none, none, none, none, none⟩], 2⟩
      ⟨1, some (Value.str "a"), none, none, none, none, none⟩ (by simp) rfl (by simp)).1.2.2.1⟩

/-- Claim C9: the update SQL unconditionally writes its whole fixed column
set, so after a successful update every stored row carrying the target id
has exactly the supplied field values — a field omitted from the request
body was destructured to `undefined`, bound as SQL NULL (`none`), and
overwrites the previous value instead of leaving it unchanged. -/
theorem c9_update_overwrites (idStr : String) (id : Int)
    (hparse : parseIntLit idStr = some id)
    (dbA : VariantA.DB) (bodyA : VariantA.ProductoBody)
    (dbB : VariantB.DB) (bodyB : VariantB.UpdateBody) :
    (∀ r ∈ (VariantA.updateProducto none idStr bodyA dbA).db.rows,
      r.id = id → r.nombre = bodyA.nombre ∧ r.descripcion = bodyA.descripcion
        ∧ r.precio = bodyA.precio ∧ r.stock = bodyA.stock)
    ∧ (∀ r ∈ (VariantB.updateProducto none idStr bodyB dbB).db.rows,
      r.id = id → r.nombre = bodyB.nombre ∧ r.costo_venta = bodyB.costo_venta
        ∧ r.cantidad_disponible = bodyB.cantidad_disponible) := by
  constructor
  · cases hF : dbA.rows.filter (fun r => r.id = id) with
    | nil =>
      have hdb : (VariantA.updateProducto none idStr bodyA dbA).db = dbA := by
        simp [VariantA.updateProducto, hparse, hF]
      rw [hdb]
      intro r hr hrid
      exact absurd hF (filter_ne_nil_of_mem hr (decide_eq_true hrid))
    | cons rh rt =>
      have hdb : (VariantA.updateProducto none idStr bodyA dbA).db =
          ⟨dbA.rows.map (fun s => if s.id = id then VariantA.applyUpdate bodyA s else s),
            dbA.nextId⟩ := by
        simp [VariantA.updateProducto, hparse, hF]
      rw [hdb]
      intro r hr hrid
      obtain ⟨s, hs, hsr⟩ := List.mem_map.mp hr
      by_cases hsid : s.id = id
      · rw [if_pos hsid] at hsr
        subst hsr
        exact ⟨rfl, rfl, rfl, rfl⟩
      · rw [if_neg hsid] at hsr
        subst hsr
        exact absurd hrid hsid
  · cases hF : dbB.rows.filter (fun r => r.id = id) with
    | nil =>
      have hdb : (VariantB.updateProducto none idStr bodyB dbB).db = dbB := by
        simp [VariantB.updateProducto, hparse, hF]
      rw [hdb]
      intro r hr hrid
      exact absurd hF (filter_ne_nil_of_mem hr (decide_eq_true hrid))
    | cons rh rt =>
      have hdb : (VariantB.updateProducto none idStr bodyB dbB).db =
          ⟨dbB.rows.map (fun s => if s.id = id then VariantB.applyUpdate bodyB s else s),
            dbB.nextId⟩ := by
        simp [VariantB.updateProducto, hparse, hF]
      rw [hdb]
      intro r hr hrid
      obtain ⟨s, hs, hsr⟩ := List.mem_map.mp hr
      by_cases hsid : s.id = id
      · rw [if_pos hsid] at hsr
        subst hsr
        exact ⟨rfl, rfl, rfl⟩
      · rw [if_neg hsid] at hsr
        subst hsr
        exact absurd hrid hsid

/-- Claim C9 witness: a variant A update whose body carries only `nombre`
stores NULL over the previous `descripcion`, `precio` and `stock`. -/
theorem c9_update_overwrites_witness :
    parseIntLit "1" = some 1 ∧
    ∀ r ∈ (VariantA.updateProducto none "1" ⟨some (Value.str "b"), none, none, none⟩
        ⟨[⟨1, some (Value.str "a"), some (Value.str "vieja"), some (Value.num 9),
          some (Value.num 3)⟩], 2⟩).db.rows,
      r.id = 1 → r.nombre = some (Value.str "b") ∧ r.descripcion = none
        ∧ r.precio = none ∧ r.stock = none :=
  ⟨rfl,
    (c9_update_overwrites "1" 1 rfl
      ⟨[⟨1, some (Value.str "a"), some (Value.str "vieja"), some (Value.num 9),
        some (Value.num 3)⟩], 2⟩
      ⟨some (Value.str "b"), none, none, none⟩
      ⟨[], 1⟩ ⟨none, none, none⟩).1⟩
